import Mathlib

/-!
# Verification of the `nbsvg` SVGView widget

Shallow embedding of `src/nbsvg/js/SVGView.js`: a one-way data-binding
adapter that renders the `svg` attribute of an external (Backbone-style)
model into an `<svg>` container element and refreshes it on each
`change:svg` notification.

The JavaScript source being embedded is:

    render: function(){
        this.$svg = $('<svg>');
        this.$el.append(this.$svg);
        this.svg_changed();
        this.$el.attr({overflow: 'hidden'});
        this.model.on('change:svg', this.svg_changed, this);
    },
    svg_changed: function() {
        this.$svg.html(this.model.get('svg'))
    },

Mutable state becomes explicit record updates; DOM effects are additionally
recorded in an effect trace so that ordering and counting properties can be
stated. The external model object and its change-notification bus (an
external collaborator, not code of this repository) are modelled from the
spec's interface description: `get(name)` reads an attribute, and delivering
a `change:svg` notification runs each callback registered for that event.
-/

namespace NbSvg

/-- One observable DOM/subscription effect performed by the view. The trace
of a run records these in the order the code performs them. -/
inductive Effect
  | createSvgRoot
  | appendChild
  | syncContent
  | setOverflowHidden
  | subscribe
deriving DecidableEq, Repr

/-- The externally-owned model object. Only its `svg` attribute is ever read
by the view (`this.model.get('svg')`). -/
structure Model where
  svg : String
deriving DecidableEq, Repr

/-- Attribute read `model.get(name)` on the external model. The model's one
observable attribute is `svg`. -/
def Model.get (m : Model) (attr : String) : String :=
  if attr = "svg" then m.svg else ""

/-- The `<svg>` container element (`this.$svg`); its state is its inner
markup, written by `$svg.html(...)`. -/
structure Container where
  content : String
deriving DecidableEq, Repr

/-- The view's host element (`this.$el`): how many children have been
appended to it, and its attribute map (written by `$el.attr(...)`). -/
structure HostEl where
  children : Nat
  attrs : List (String × String)
deriving DecidableEq, Repr

/-- Set attribute `k` to `x` in an attribute list, replacing an existing
entry for `k` (jQuery `.attr({k: x})` semantics). -/
def setAttr : List (String × String) → String → String → List (String × String)
  | [], k, x => [(k, x)]
  | (a, b) :: rest, k, x =>
      if a = k then (k, x) :: rest else (a, b) :: setAttr rest k x

/-- Read attribute `k` from an attribute list. -/
def getAttr : List (String × String) → String → Option String
  | [], _ => none
  | (a, b) :: rest, k => if a = k then some b else getAttr rest k

/-- A callback registration made on the model's change-notification bus by
`model.on(event, this.svg_changed, this)`. The callback is always this
view's `svg_changed`, so only the event name is recorded. -/
structure Listener where
  event : String
deriving DecidableEq, Repr

/-- The state of one `SVGView` instance together with its (non-owned) model:
`model` is `this.model`, `el` is `this.$el`, `svg` is `this.$svg` (absent
until `render` assigns it), and `listeners` are the registrations this
view has made on its model's bus. -/
structure SVGView where
  model : Model
  el : HostEl
  svg : Option Container
  listeners : List Listener
deriving DecidableEq, Repr

/-- The view's change handler, `svg_changed: function() {
this.$svg.html(this.model.get('svg')) }`. Fails (`none`) when `this.$svg`
is still undefined, as the JavaScript would throw a TypeError; otherwise
replaces the container's content and records one `syncContent` effect. -/
def svg_changed (v : SVGView) : Option (SVGView × List Effect) :=
  match v.svg with
  | none => none
  | some c =>
      some ({ v with svg := some { c with content := v.model.get "svg" } },
            [Effect.syncContent])

/-- The `render` lifecycle hook (the spec's `mount()`), translated line by
line; returns the new state and the trace of effects in execution order. -/
def render (v : SVGView) : SVGView × List Effect :=
  -- this.$svg = $('<svg>');
  let v1 : SVGView := { v with svg := some { content := "" } }
  -- this.$el.append(this.$svg);
  let v2 : SVGView := { v1 with el := { v1.el with children := v1.el.children + 1 } }
  -- this.svg_changed();
  let (v3, es) := (svg_changed v2).getD (v2, [])
  -- this.$el.attr({overflow: 'hidden'});
  let v4 : SVGView := { v3 with el := { v3.el with attrs := setAttr v3.el.attrs "overflow" "hidden" } }
  -- this.model.on('change:svg', this.svg_changed, this);
  let v5 : SVGView := { v4 with listeners := v4.listeners ++ [{ event := "change:svg" }] }
  (v5, Effect.createSvgRoot :: Effect.appendChild :: (es ++ [Effect.setOverflowHidden, Effect.subscribe]))

/-- Modelled from the spec: delivery of one notification for `event` by the
model's change-notification bus (spec section 6: `on(eventName, callback,
context)` registrations; each callback registered for the event runs once
per delivery). Every registered callback is this view's `svg_changed`;
a callback that throws aborts delivery (`none`). -/
def notify (v : SVGView) (event : String) : Option (SVGView × List Effect) :=
  v.listeners.foldlM
    (fun acc l =>
      if l.event = event then
        (svg_changed acc.1).map (fun r => (r.1, acc.2 ++ r.2))
      else
        pure acc)
    (v, [])

/-- Modelled from the spec: an external update of the model's `svg`
attribute followed by delivery of the resulting `change:svg` notification
(spec P2: "after each update's change notification is delivered"). -/
def setSvg (v : SVGView) (s : String) : Option (SVGView × List Effect) :=
  notify { v with model := { v.model with svg := s } } "change:svg"

/-- A sequence of external `svg` updates, each followed by its notification
delivery. -/
def applyUpdates (v : SVGView) (us : List String) : Option SVGView :=
  us.foldlM (fun w s => (setSvg w s).map Prod.fst) v

/-- Deliver `n` successive `change:svg` notifications (spec P4's
"simulating N notifications"), accumulating the effect trace. -/
def notifyTimes (v : SVGView) : Nat → Option (SVGView × List Effect)
  | 0 => some (v, [])
  | n + 1 =>
      match notify v "change:svg" with
      | none => none
      | some (v1, e1) =>
          match notifyTimes v1 n with
          | none => none
          | some (v2, e2) => some (v2, e1 ++ e2)

/-- A view as it stands after `render`: the container exists and exactly
the one `change:svg` registration made at mount time is present. -/
def Mounted (v : SVGView) : Prop :=
  v.svg.isSome = true ∧ v.listeners = [{ event := "change:svg" }]

instance : DecidablePred Mounted := fun v =>
  inferInstanceAs
    (Decidable (v.svg.isSome = true ∧ v.listeners = [{ event := "change:svg" }]))

/-! ## Basic computation lemmas -/

lemma Model.get_svg (m : Model) : m.get "svg" = m.svg := by
  simp [Model.get]

/-- Full characterization of `render`: resulting state and effect trace. -/
lemma render_eq (v : SVGView) :
    render v =
      ({ model := v.model,
         el := { children := v.el.children + 1,
                 attrs := setAttr v.el.attrs "overflow" "hidden" },
         svg := some { content := v.model.svg },
         listeners := v.listeners ++ [{ event := "change:svg" }] },
       [Effect.createSvgRoot, Effect.appendChild, Effect.syncContent,
        Effect.setOverflowHidden, Effect.subscribe]) := by
  simp [render, svg_changed, Model.get_svg]

lemma getAttr_setAttr (l : List (String × String)) (k x : String) :
    getAttr (setAttr l k x) k = some x := by
  induction l with
  | nil => simp [setAttr, getAttr]
  | cons p rest ih =>
      obtain ⟨a, b⟩ := p
      by_cases h : a = k
      · simp [setAttr, getAttr, h]
      · simp [setAttr, getAttr, h, ih]

/-- Delivery to a mounted view: exactly one `syncContent`, the container
now holds the model's current `svg` value, and everything else (model,
host element, listeners) is unchanged. -/
lemma notify_mounted (v : SVGView) (h : Mounted v) :
    notify v "change:svg" =
      some ({ v with svg := some { content := v.model.svg } },
            [Effect.syncContent]) := by
  obtain ⟨hs, hl⟩ := h
  obtain ⟨c, hc⟩ := Option.isSome_iff_exists.mp hs
  simp [notify, hl, List.foldlM, svg_changed, hc, Model.get_svg]

lemma mounted_render (v : SVGView) (h : v.listeners = []) :
    Mounted (render v).1 := by
  rw [render_eq]
  exact ⟨rfl, by simp [h]⟩

lemma setSvg_mounted (v : SVGView) (s : String) (h : Mounted v) :
    setSvg v s =
      some ({ v with model := { v.model with svg := s },
                     svg := some { content := s } },
            [Effect.syncContent]) := by
  have h' : Mounted { v with model := { v.model with svg := s } } := h
  rw [setSvg, notify_mounted _ h']

/-- The "mounted and in sync" invariant: the container holds exactly the
model's current `svg` value, and the single mount-time registration is
present. -/
def Synced (v : SVGView) : Prop :=
  v.svg = some { content := v.model.svg } ∧
  v.listeners = [{ event := "change:svg" }]

lemma Synced.mounted {v : SVGView} (h : Synced v) : Mounted v :=
  ⟨by simp [h.1], h.2⟩

lemma synced_render (v : SVGView) (h : v.listeners = []) :
    Synced (render v).1 := by
  rw [render_eq]
  exact ⟨rfl, by simp [h]⟩

lemma synced_setSvg {v : SVGView} (h : Synced v) (s : String) :
    ∃ v', setSvg v s = some (v', [Effect.syncContent]) ∧ Synced v' ∧
      v'.model.svg = s := by
  refine ⟨_, setSvg_mounted v s h.mounted, ⟨rfl, by simp [h.2]⟩, rfl⟩

lemma synced_applyUpdates {v : SVGView} (h : Synced v) (us : List String) :
    ∃ vf, applyUpdates v us = some vf ∧ Synced vf ∧
      vf.model.svg = us.getLastD v.model.svg := by
  induction us generalizing v with
  | nil => exact ⟨v, rfl, h, rfl⟩
  | cons s rest ih =>
      obtain ⟨v', hset, hs', hval⟩ := synced_setSvg h s
      obtain ⟨vf, happ, hsf, hlast⟩ := ih hs'
      refine ⟨vf, ?_, hsf, ?_⟩
      · simp [applyUpdates, List.foldlM, hset]
        simpa [applyUpdates] using happ
      · rw [hlast, hval]
        cases rest <;> simp [List.getLastD]

/-! ## Multi-instance system

For the isolation property (two views on two models), the same source is
embedded once more at system level: several models, several views (each
holding the index of the model it observes), and the notification bus's
registration list, keyed — as in the source's `this.model.on(...)` — by the
identity of the model the registration was made on. -/

/-- A registration on the bus: made on model `modelId`, for `event`, with
the bound callback `views[viewId].svg_changed`. -/
structure Reg where
  modelId : Nat
  event : String
  viewId : Nat
deriving DecidableEq, Repr

/-- One view instance in the system: the model it observes (by index), its
host element, and its `$svg` container. -/
structure SysView where
  modelId : Nat
  el : HostEl
  svg : Option Container
deriving DecidableEq, Repr

/-- The whole system: the kernel-owned models, the view instances, and the
bus registrations. -/
structure Sys where
  models : List Model
  views : List SysView
  regs : List Reg
deriving DecidableEq, Repr

/-- System-level `svg_changed` of view `vid`: reads `svg` from the model
that view observes and overwrites that view's container content. -/
def sysSvgChanged (sys : Sys) (vid : Nat) : Option Sys :=
  match sys.views[vid]? with
  | none => none
  | some v =>
      match v.svg, sys.models[v.modelId]? with
      | some c, some m =>
          some { sys with
                   views := sys.views.set vid
                     { v with svg := some { c with content := m.get "svg" } } }
      | _, _ => none

/-- System-level `render` of view `vid`: the same five steps as `render`,
with the subscription recorded on the bus keyed by that view's model. -/
def sysRender (sys : Sys) (vid : Nat) : Option Sys :=
  match sys.views[vid]? with
  | none => none
  | some v =>
      -- this.$svg = $('<svg>'); this.$el.append(this.$svg);
      let v2 : SysView :=
        { v with svg := some { content := "" },
                 el := { v.el with children := v.el.children + 1 } }
      let sys2 : Sys := { sys with views := sys.views.set vid v2 }
      -- this.svg_changed();
      match sysSvgChanged sys2 vid with
      | none => none
      | some sys3 =>
          match sys3.views[vid]? with
          | none => none
          | some v3 =>
              -- this.$el.attr({overflow: 'hidden'});
              let v4 : SysView :=
                { v3 with el := { v3.el with attrs := setAttr v3.el.attrs "overflow" "hidden" } }
              -- this.model.on('change:svg', this.svg_changed, this);
              some { sys3 with
                       views := sys3.views.set vid v4,
                       regs := sys3.regs ++
                         [{ modelId := v.modelId, event := "change:svg", viewId := vid }] }

/-- One delivery step of the bus fold: fire registration `r` if it was made
on model `mid` for `change:svg`. -/
def fireStep (mid : Nat) (acc : Sys) (r : Reg) : Sys :=
  if r.modelId = mid ∧ r.event = "change:svg" then
    (sysSvgChanged acc r.viewId).getD acc
  else acc

/-- Modelled from the spec: the kernel sets model `mid`'s `svg` attribute
and the bus delivers the `change:svg` notification to every registration
made on that model (spec section 6's pub/sub contract). -/
def sysSetSvg (sys : Sys) (mid : Nat) (s : String) : Sys :=
  let sys1 : Sys :=
    { sys with models :=
        match sys.models[mid]? with
        | some m => sys.models.set mid { m with svg := s }
        | none => sys.models }
  sys1.regs.foldl (fireStep mid) sys1

lemma sysSvgChanged_other {sys sys' : Sys} {i j : Nat} (hij : i ≠ j)
    (h : sysSvgChanged sys i = some sys') :
    sys'.views[j]? = sys.views[j]? := by
  unfold sysSvgChanged at h
  split at h
  · cases h
  · split at h
    · obtain rfl := Option.some_injective _ h
      exact List.getElem?_set_ne hij
    · cases h

lemma fireStep_other {mid j : Nat} (acc : Sys) (r : Reg)
    (h : r.modelId = mid → r.event = "change:svg" → r.viewId ≠ j) :
    (fireStep mid acc r).views[j]? = acc.views[j]? := by
  unfold fireStep
  by_cases hc : r.modelId = mid ∧ r.event = "change:svg"
  · rw [if_pos hc]
    cases hfire : sysSvgChanged acc r.viewId with
    | none => simp
    | some sys' => simpa using sysSvgChanged_other (h hc.1 hc.2) hfire
  · rw [if_neg hc]

lemma foldl_fireStep_other {mid j : Nat} (rs : List Reg) (acc : Sys)
    (h : ∀ r ∈ rs, r.modelId = mid → r.event = "change:svg" → r.viewId ≠ j) :
    (rs.foldl (fireStep mid) acc).views[j]? = acc.views[j]? := by
  induction rs generalizing acc with
  | nil => rfl
  | cons r rest ih =>
      rw [List.foldl_cons, ih _ (fun r' hr' => h r' (List.mem_cons_of_mem r hr')),
        fireStep_other acc r (h r (List.mem_cons_self r rest))]

lemma notifyTimes_mounted (n : Nat) (v : SVGView) (h : Mounted v) :
    ∃ v', notifyTimes v n = some (v', List.replicate n Effect.syncContent) ∧
      Mounted v' := by
  induction n generalizing v with
  | zero => exact ⟨v, rfl, h⟩
  | succ n ih =>
      have hn := notify_mounted v h
      have h1 : Mounted { v with svg := some { content := v.model.svg } } :=
        ⟨rfl, h.2⟩
      obtain ⟨v', hv', hm⟩ := ih _ h1
      refine ⟨v', ?_, hm⟩
      simp only [notifyTimes, hn, hv']
      simp [List.replicate_succ]

/-! ## The claims -/

/-- C1: for every mounted view and every sequence of updates to the model's
`svg` attribute, after each update's change notification has been delivered
(and after the initial sync at mount), the container's content equals the
most recently observed value of `Model.svg` — never a stale or intermediate
value. Stated over a view mounted from a fresh (unsubscribed) state: after
any update sequence the delivery succeeds, the container content is exactly
the model's current `svg`, and that value is the last update (or the
mount-time value when there were no updates). -/
theorem C1_reactivity (v0 : SVGView) (h : v0.listeners = []) (us : List String) :
    ∃ vf, applyUpdates (render v0).1 us = some vf ∧
      vf.svg = some { content := vf.model.svg } ∧
      vf.model.svg = us.getLastD v0.model.svg := by
  obtain ⟨vf, happ, hs, hlast⟩ := synced_applyUpdates (synced_render v0 h) us
  refine ⟨vf, happ, hs.1, ?_⟩
  rw [hlast, render_eq]

/-- Witness for C1: mount on `"<circle>"`, then updates
`"<rect/>"`, `"<line/>"`, `""`; the final container content is `""`. -/
theorem C1_reactivity_witness :
    ∃ vf, applyUpdates
        (render { model := { svg := "<circle>" }, el := { children := 0, attrs := [] },
                  svg := none, listeners := [] }).1
        ["<rect/>", "<line/>", ""] = some vf ∧
      vf.svg = some { content := vf.model.svg } ∧
      vf.model.svg = (["<rect/>", "<line/>", ""] : List String).getLastD "<circle>" :=
  C1_reactivity _ rfl _

/-- C2: for every model whose `svg` attribute holds `v` at mount time, after
`render` completes the container's content equals exactly `v`; in
particular, for `v = "<circle r='5'/>"` the content is exactly
`"<circle r='5'/>"` (the apostrophes are written as `\x27`). -/
theorem C2_initial_render :
    (∀ v : SVGView, ((render v).1).svg = some { content := v.model.svg }) ∧
    ((render { model := { svg := "<circle r=\x275\x27/>" },
               el := { children := 0, attrs := [] },
               svg := none, listeners := [] }).1).svg =
      some { content := "<circle r=\x275\x27/>" } := by
  constructor
  · intro v; rw [render_eq]
  · rw [render_eq]

/-- C3: the change-notification subscription is registered only after the
initial sync in `render` has completed — in the mount effect trace,
`syncContent` precedes `subscribe` — and no notification-triggered sync can
precede the initial sync: delivering a notification to a view that has not
yet subscribed (fresh, no listeners) performs no sync at all. -/
theorem C3_sync_before_subscribe :
    (∀ v : SVGView,
        ((render v).2).indexOf Effect.syncContent <
          ((render v).2).indexOf Effect.subscribe ∧
        Effect.syncContent ∈ (render v).2 ∧ Effect.subscribe ∈ (render v).2) ∧
    (∀ v : SVGView, v.listeners = [] → notify v "change:svg" = some (v, [])) := by
  constructor
  · intro v
    have ht : (render v).2 =
        [Effect.createSvgRoot, Effect.appendChild, Effect.syncContent,
         Effect.setOverflowHidden, Effect.subscribe] := by rw [render_eq]
    rw [ht]
    exact ⟨by decide, by decide, by decide⟩
  · intro v h
    simp [notify, h, List.foldlM]

/-- Witness for C3: an unmounted, unsubscribed view receives a notification
and performs no sync. -/
theorem C3_sync_before_subscribe_witness :
    notify { model := { svg := "a" }, el := { children := 0, attrs := [] },
             svg := none, listeners := [] } "change:svg" =
      some ({ model := { svg := "a" }, el := { children := 0, attrs := [] },
              svg := none, listeners := [] }, []) :=
  C3_sync_before_subscribe.2 _ rfl

/-- C4: mounting registers exactly one `change:svg` listener (one appended
registration; exactly one in total from a fresh state), and delivering `N`
notifications to a mounted view performs exactly `N` content replacements —
the accumulated effect trace is exactly `N` `syncContent` effects, no more. -/
theorem C4_single_subscription :
    (∀ v : SVGView,
        ((render v).1).listeners = v.listeners ++ [{ event := "change:svg" }]) ∧
    (∀ v : SVGView, v.listeners = [] → ((render v).1).listeners.length = 1) ∧
    (∀ (n : Nat) (v : SVGView), Mounted v →
        ∃ v', notifyTimes v n = some (v', List.replicate n Effect.syncContent)) := by
  refine ⟨fun v => by rw [render_eq], fun v h => by rw [render_eq]; simp [h], ?_⟩
  intro n v h
  obtain ⟨v', hv', -⟩ := notifyTimes_mounted n v h
  exact ⟨v', hv'⟩

/-- Witness for C4: a freshly mounted view has one listener, and two
deliveries produce exactly two `syncContent` effects. -/
theorem C4_single_subscription_witness :
    ((render { model := { svg := "a" }, el := { children := 0, attrs := [] },
               svg := none, listeners := [] }).1).listeners.length = 1 ∧
    ∃ v', notifyTimes
        { model := { svg := "a" }, el := { children := 1, attrs := [] },
          svg := some { content := "a" }, listeners := [{ event := "change:svg" }] } 2 =
      some (v', List.replicate 2 Effect.syncContent) :=
  ⟨C4_single_subscription.2.1 _ rfl, C4_single_subscription.2.2 2 _ ⟨rfl, rfl⟩⟩

/-- C5 as stated is false: `render` performs the initial content sync
(third) before setting the host's overflow attribute (fourth), whereas the
claim puts the overflow assignment third and the sync fourth. Concrete
counterexample: the mount trace is not the claimed sequence. -/
theorem C5_counterexample :
    (render { model := { svg := "<rect/>" }, el := { children := 0, attrs := [] },
              svg := none, listeners := [] }).2 ≠
      [Effect.createSvgRoot, Effect.appendChild, Effect.setOverflowHidden,
       Effect.syncContent, Effect.subscribe] := by
  decide

/-- C5 amended: `render` performs its effects in the order (1) create the
SVG root, (2) append it to the host element, (3) one synchronous content
sync, (4) set the host's overflow behavior to hidden, (5) register the
`change:svg` callback. -/
theorem C5_mount_effect_order (v : SVGView) :
    (render v).2 =
      [Effect.createSvgRoot, Effect.appendChild, Effect.syncContent,
       Effect.setOverflowHidden, Effect.subscribe] := by
  rw [render_eq]

/-- C6: for every view and every value of the `svg` attribute (the view,
hence the model value, is universally quantified), after `render` completes
the host element's overflow attribute is `"hidden"`. -/
theorem C6_overflow_hidden (v : SVGView) :
    getAttr ((render v).1).el.attrs "overflow" = some "hidden" := by
  rw [render_eq]
  exact getAttr_setAttr _ _ _

/-- C7: for every mounted view (one whose container exists), running
`svg_changed` twice with no intervening model change reaches the same state
after the first call as after the second — identical container content, no
duplication or accumulation. -/
theorem C7_sync_idempotent (v : SVGView) (c : Container) (h : v.svg = some c) :
    ∃ v1 e1 e2, svg_changed v = some (v1, e1) ∧ svg_changed v1 = some (v1, e2) := by
  refine ⟨{ v with svg := some { content := v.model.get "svg" } },
    [Effect.syncContent], [Effect.syncContent], ?_, rfl⟩
  simp [svg_changed, h]

/-- Witness for C7 at a concrete mounted view. -/
theorem C7_sync_idempotent_witness :
    ∃ v1 e1 e2,
      svg_changed ({ model := { svg := "a" }, el := { children := 1, attrs := [] },
                     svg := some { content := "" },
                     listeners := [{ event := "change:svg" }] } : SVGView) =
        some (v1, e1) ∧
      svg_changed v1 = some (v1, e2) :=
  C7_sync_idempotent _ { content := "" } rfl

/-- C8 as stated is false: besides the one element insertion and the
container content replacement, mount also mutates the host element's
attribute state (it sets `overflow` to `"hidden"`), a further document
mutation the claim's exhaustive list omits. Concrete counterexample: a host
element with no attributes has an attribute after mount. -/
theorem C8_frame_counterexample :
    ((render { model := { svg := "x" }, el := { children := 0, attrs := [] },
               svg := none, listeners := [] }).1).el.attrs ≠ [] := by
  decide

/-- C8 amended: every operation leaves the model unmodified, and the view's
only mutations are: at mount, one element insertion into the host, the
host's overflow-attribute assignment, the container content sync and one
bus registration; on each sync, only the container's content changes (model,
host element and listeners are untouched). -/
theorem C8_frame :
    (∀ v : SVGView,
        ((render v).1).model = v.model ∧
        ((render v).1).el.children = v.el.children + 1 ∧
        ((render v).1).el.attrs = setAttr v.el.attrs "overflow" "hidden" ∧
        ((render v).1).listeners = v.listeners ++ [{ event := "change:svg" }]) ∧
    (∀ (v : SVGView) (c : Container), v.svg = some c →
        svg_changed v =
          some ({ v with svg := some { content := v.model.svg } },
                [Effect.syncContent])) := by
  constructor
  · intro v; rw [render_eq]; exact ⟨rfl, rfl, rfl, rfl⟩
  · intro v c h
    simp [svg_changed, h, Model.get_svg]

/-- Witness for C8 (amended): a concrete sync changes only the container
content. -/
theorem C8_frame_witness :
    svg_changed ({ model := { svg := "a" }, el := { children := 1, attrs := [] },
                   svg := some { content := "" }, listeners := [] } : SVGView) =
      some ({ model := { svg := "a" }, el := { children := 1, attrs := [] },
              svg := some { content := "a" }, listeners := [] }, [Effect.syncContent]) :=
  C8_frame.2 _ { content := "" } rfl

/-- C9: two independent view instances, each mounted against its own model,
never cross-update: after mounting view 0 on model 0 and view 1 on model 1,
an external update of model 0's `svg` attribute (with its notification
delivery) leaves view 1 entirely unchanged, while view 0's container does
receive the new value. -/
theorem C9_isolation (m1 m2 : Model) (e1 e2 : HostEl) (s : String) :
    ∃ sys2 : Sys,
      (sysRender { models := [m1, m2],
                   views := [{ modelId := 0, el := e1, svg := none },
                             { modelId := 1, el := e2, svg := none }],
                   regs := [] } 0).bind (fun s1 => sysRender s1 1) = some sys2 ∧
      (sysSetSvg sys2 0 s).views[1]? = sys2.views[1]? ∧
      ∃ v0, (sysSetSvg sys2 0 s).views[0]? = some v0 ∧
        v0.svg = some { content := s } :=
  ⟨_, rfl, rfl, _, rfl, rfl⟩

/-- C10: `svg_changed` is safe only after mount: on an unmounted view (no
container assigned) it fails, and on any view produced by `render` its
failure branch is unreachable — it succeeds and syncs the container. -/
theorem C10_sync_requires_mount :
    (∀ v : SVGView, v.svg = none → svg_changed v = none) ∧
    (∀ v : SVGView,
        svg_changed (render v).1 =
          some ({ (render v).1 with svg := some { content := v.model.svg } },
                [Effect.syncContent])) := by
  constructor
  · intro v h; simp [svg_changed, h]
  · intro v
    rw [render_eq]
    simp [svg_changed, Model.get_svg]

/-- Witness for C10: a concrete unmounted view fails on `svg_changed`. -/
theorem C10_sync_requires_mount_witness :
    svg_changed ({ model := { svg := "a" }, el := { children := 0, attrs := [] },
                   svg := none, listeners := [] } : SVGView) = none :=
  C10_sync_requires_mount.1 _ rfl

end NbSvg
